import Mathlib

/-!
Verification of the postmark-mcp tool-dispatch layer (src/index.js).

The JavaScript handlers are embedded shallowly: module-level configuration
(`serverToken`, `defaultSender`, `defaultMessageStream`) becomes an explicit
`Env` record, the filesystem becomes a function `String → Option (List Nat)`
(bytes of the file, `none` when unreadable), and the provider is modelled by
passing the values it would return (message id, template list, statistics
body) as arguments.  JavaScript truthiness on the optional string / number
fields is modelled explicitly (`undefined` ↦ `none`; the empty string and
the number 0 are falsy).  `throw` becomes `Except.error`.
-/

namespace Postmark

/-- Process-wide configuration, read once at startup in index.js
(`POSTMARK_SERVER_TOKEN`, `DEFAULT_SENDER_EMAIL`, `DEFAULT_MESSAGE_STREAM`). -/
structure Env where
  serverToken : String
  defaultSender : String
  defaultMessageStream : String
deriving Repr, DecidableEq

/-- JavaScript truthiness of an optional string value: `undefined` and the
empty string are falsy. -/
def truthyStr : Option String → Bool
  | some s => ¬ s.isEmpty
  | none => false

/-- JavaScript truthiness of an optional number value: `undefined` and 0 are
falsy (zod `z.number()` rejects `NaN`, so integers model the validated
values). -/
def truthyNum : Option Int → Bool
  | some n => n ≠ 0
  | none => false

/-- The JavaScript expression `s || d` on an optional string `s`:
the default is used when `s` is `undefined` or empty. -/
def strOr (s : Option String) (d : String) : String :=
  if truthyStr s then s.getD d else d

/-- Rendering of an optional string inside a template literal: `undefined`
prints as the string "undefined". -/
def jsShow : Option String → String
  | some s => s
  | none => "undefined"

/-- One `{ type, text }` entry of a tool result. -/
structure ContentItem where
  type : String
  text : String
deriving Repr, DecidableEq

/-- The MCP tool result shape `{ content: [...] }`. -/
structure ToolResult where
  content : List ContentItem
deriving Repr, DecidableEq

/-! ### node:path — `basename` and `extname` (POSIX) -/

/-- Strip trailing `/` characters, as `path.basename` does before taking the
final segment. -/
def dropTrailingSlashes (p : String) : String :=
  String.mk ((p.toList.reverse.dropWhile (fun c => c = '/')).reverse)

/-- `path.basename(p)`: the final path segment of `p`. -/
def basename (p : String) : String :=
  String.mk (((dropTrailingSlashes p).toList.reverse.takeWhile (fun c => c ≠ '/')).reverse)

/-- Position of the last `.` in a list of characters, if any. -/
def lastDotIdx : List Char → Option Nat
  | [] => none
  | c :: rest =>
    match lastDotIdx rest with
    | some i => some (i + 1)
    | none => if c = '.' then some 0 else none

/-- `path.extname(p)`: the substring of the basename from its last `.` to the
end; empty when the basename has no `.` or only a leading `.`
(e.g. `".bashrc"`). -/
def extname (p : String) : String :=
  let b := (basename p).toList
  match lastDotIdx b with
  | none => ""
  | some 0 => ""
  | some i => String.mk (b.drop i)

/-! ### Attachment encoding (sendEmail handler, src/index.js lines 142-171) -/

/-- The static extension → MIME table declared inside the sendEmail
handler. -/
def MIME_TYPES : List (String × String) :=
  [ (".csv", "text/csv"),
    (".txt", "text/plain"),
    (".json", "application/json"),
    (".pdf", "application/pdf"),
    (".png", "image/png"),
    (".jpg", "image/jpeg"),
    (".jpeg", "image/jpeg"),
    (".gif", "image/gif"),
    (".html", "text/html"),
    (".xml", "application/xml"),
    (".zip", "application/zip"),
    (".md", "text/markdown") ]

/-- `toLowerCase()` as character-wise lowering (the table's keys are ASCII,
for which this matches the JavaScript method). -/
def toLowerCase (s : String) : String := String.mk (s.toList.map Char.toLower)

/-- `MIME_TYPES[ext] || 'application/octet-stream'` where
`ext = path.extname(att.filePath).toLowerCase()`. -/
def contentTypeFor (filePath : String) : String :=
  ((MIME_TYPES.lookup (toLowerCase (extname filePath))).getD "application/octet-stream")

/-- The base64 alphabet. -/
def base64Chars : List Char :=
  "ABCDEFGHIJKLMNOPQRSTUVWXYZabcdefghijklmnopqrstuvwxyz0123456789+/".toList

/-- Character of the base64 alphabet at index `i` (i < 64 in every use). -/
def b64At (i : Nat) : Char := (base64Chars.getD i 'A')

/-- `Buffer.toString('base64')` on a byte sequence. -/
def base64Encode : List Nat → String
  | [] => ""
  | [a] =>
    String.mk [b64At (a % 256 / 4), b64At (a % 256 % 4 * 16), '=', '=']
  | [a, b] =>
    String.mk [b64At (a % 256 / 4), b64At (a % 256 % 4 * 16 + b % 256 / 16),
      b64At (b % 256 % 16 * 4), '=']
  | a :: b :: c :: rest =>
    String.mk [b64At (a % 256 / 4), b64At (a % 256 % 4 * 16 + b % 256 / 16),
      b64At (b % 256 % 16 * 4 + c % 256 / 64), b64At (c % 256 % 64)]
      ++ base64Encode rest

/-- One element of the `attachments` argument of sendEmail. -/
structure AttachmentRequest where
  filePath : String
  fileName : Option String
deriving Repr, DecidableEq

/-- One element of the `Attachments` field of the outgoing payload. -/
structure EncodedAttachment where
  Name : String
  Content : String
  ContentType : String
deriving Repr, DecidableEq

/-- The name the handler gives an attachment:
`att.fileName || path.basename(att.filePath)`. -/
def resolveName (att : AttachmentRequest) : String :=
  strOr att.fileName (basename att.filePath)

/-- The body of `attachments.map(att => ...)` in the sendEmail handler:
read the file (`fs.readFileSync` throws on an unreadable path, modelled as
`Except.error`), then build the encoded attachment. -/
def encodeAttachment (fs : String → Option (List Nat)) (att : AttachmentRequest) :
    Except String EncodedAttachment :=
  match fs att.filePath with
  | none => .error ("ENOENT: no such file or directory, open " ++ att.filePath)
  | some bytes =>
    .ok { Name := resolveName att
          Content := base64Encode bytes
          ContentType := contentTypeFor att.filePath }

/-- `attachments.map(...)` with the throwing read inside: files are read
left to right and the first failure aborts the whole send. -/
def encodeAttachments (fs : String → Option (List Nat)) :
    List AttachmentRequest → Except String (List EncodedAttachment)
  | [] => .ok []
  | att :: rest =>
    match encodeAttachment fs att with
    | .error e => .error e
    | .ok enc =>
      match encodeAttachments fs rest with
      | .error e => .error e
      | .ok encs => .ok (enc :: encs)

/-! ### sendEmail (src/index.js lines 114-188) -/

/-- Validated arguments of the sendEmail tool. -/
structure SendEmailArgs where
  «to» : String
  subject : String
  textBody : String
  htmlBody : Option String
  «from» : Option String
  tag : Option String
  attachments : Option (List AttachmentRequest)
deriving Repr, DecidableEq

/-- The `emailData` object built by the sendEmail handler; fields added only
conditionally are `Option`, `none` meaning the key is absent. -/
structure SendEmailData where
  From : String
  To : String
  Subject : String
  TextBody : String
  MessageStream : String
  TrackOpens : Bool
  TrackLinks : String
  HtmlBody : Option String
  Tag : Option String
  Attachments : Option (List EncodedAttachment)
deriving Repr, DecidableEq

/-- The guard `attachments && attachments.length > 0`. -/
def attachGuard : Option (List AttachmentRequest) → Bool
  | some l => l.length > 0
  | none => false

/-- The `emailData` literal of the sendEmail handler before the conditional
field additions (`From || default`, fixed tracking and stream policy), with
the two `if (x) emailData.X = x` additions folded in as `Option` fields. -/
def sendEmailBase (env : Env) (args : SendEmailArgs) : SendEmailData :=
  { From := strOr args.«from» env.defaultSender
    To := args.«to»
    Subject := args.subject
    TextBody := args.textBody
    MessageStream := env.defaultMessageStream
    TrackOpens := true
    TrackLinks := "HtmlAndText"
    HtmlBody := if truthyStr args.htmlBody then args.htmlBody else none
    Tag := if truthyStr args.tag then args.tag else none
    Attachments := none }

/-- Construction of `emailData` in the sendEmail handler, up to and including
the conditional `emailData.Attachments = attachments.map(...)` block. -/
def buildSendEmailData (env : Env) (fs : String → Option (List Nat))
    (args : SendEmailArgs) : Except String SendEmailData :=
  if attachGuard args.attachments then
    match encodeAttachments fs (args.attachments.getD []) with
    | .error e => .error e
    | .ok encs => .ok { sendEmailBase env args with Attachments := some encs }
  else
    .ok (sendEmailBase env args)

/-- `attachInfo`: the optional `\nAttachments: ...` suffix of the success
text, built from `emailData.Attachments` (an array is always truthy in
JavaScript, so presence of the field decides). -/
def attachInfo (d : SendEmailData) : String :=
  match d.Attachments with
  | some atts => "\nAttachments: " ++ String.intercalate ", " (atts.map (·.Name))
  | none => ""

/-- The whole sendEmail handler.  `messageID` models `result.MessageID`
returned by the provider call `postmarkClient.sendEmail(emailData)`; the
returned pair is (payload sent to the provider, tool result). -/
def sendEmail (env : Env) (fs : String → Option (List Nat))
    (args : SendEmailArgs) (messageID : String) :
    Except String (SendEmailData × ToolResult) :=
  match buildSendEmailData env fs args with
  | .error e => .error e
  | .ok d =>
    .ok (d, { content := [ContentItem.mk "text"
      ("Email sent successfully!\nMessageID: " ++ messageID
          ++ "\nTo: " ++ args.«to» ++ "\nSubject: " ++ args.subject
          ++ attachInfo d)] })

/-! ### sendEmailWithTemplate (src/index.js lines 191-234) -/

/-- The `templateModel` argument is an opaque key→value map the handler
never inspects. -/
def TemplateModel := List (String × String)
deriving Repr, DecidableEq

/-- Validated arguments of the sendEmailWithTemplate tool. -/
structure SendTemplateArgs where
  «to» : String
  templateId : Option Int
  templateAlias : Option String
  templateModel : TemplateModel
  «from» : Option String
  tag : Option String
deriving Repr, DecidableEq

/-- The `emailData` object built by the sendEmailWithTemplate handler. -/
structure SendTemplateData where
  From : String
  To : String
  TemplateModel : TemplateModel
  MessageStream : String
  TrackOpens : Bool
  TrackLinks : String
  TemplateId : Option Int
  TemplateAlias : Option String
  Tag : Option String
deriving Repr, DecidableEq

/-- The `emailData` literal of the sendEmailWithTemplate handler before the
template reference is attached. -/
def sendTemplateBase (env : Env) (args : SendTemplateArgs) : SendTemplateData :=
  { From := strOr args.«from» env.defaultSender
    To := args.«to»
    TemplateModel := args.templateModel
    MessageStream := env.defaultMessageStream
    TrackOpens := true
    TrackLinks := "HtmlAndText"
    TemplateId := none
    TemplateAlias := none
    Tag := if truthyStr args.tag then args.tag else none }

/-- The sendEmailWithTemplate handler up to the provider call: the
`!templateId && !templateAlias` guard (JavaScript truthiness), then payload
construction with `if (templateId) ... else ...`. -/
def sendEmailWithTemplate (env : Env) (args : SendTemplateArgs) :
    Except String SendTemplateData :=
  if ¬ truthyNum args.templateId ∧ ¬ truthyStr args.templateAlias then
    .error "Either templateId or templateAlias must be provided"
  else if truthyNum args.templateId then
    .ok { sendTemplateBase env args with TemplateId := args.templateId }
  else
    .ok { sendTemplateBase env args with TemplateAlias := args.templateAlias }

/-- The success text of sendEmailWithTemplate; `templateId || templateAlias`
picks what to display (shown via `templateRefShown`). -/
def templateRefShown (args : SendTemplateArgs) : String :=
  if truthyNum args.templateId then toString ((args.templateId).getD 0)
  else jsShow args.templateAlias

/-- Tool result of a successful sendEmailWithTemplate call. -/
def sendTemplateResult (args : SendTemplateArgs) (messageID : String) : ToolResult :=
  { content := [ContentItem.mk "text"
    ("Template email sent successfully!\nMessageID: " ++ messageID
        ++ "\nTo: " ++ args.«to» ++ "\nTemplate: " ++ templateRefShown args)] }

/-! ### listTemplates (src/index.js lines 237-256) -/

/-- One template record of `postmarkClient.getTemplates().Templates`. -/
structure Template where
  Name : String
  TemplateId : Int
  Alias : Option String
  Subject : Option String
deriving Repr, DecidableEq

/-- The per-template block of the listTemplates result text. -/
def templateBlock (t : Template) : String :=
  "• **" ++ t.Name ++ "**\n  - ID: " ++ toString t.TemplateId
    ++ "\n  - Alias: " ++ strOr t.Alias "none"
    ++ "\n  - Subject: " ++ strOr t.Subject "none"

/-- The listTemplates handler, given the template list the provider
returned. -/
def listTemplates (templates : List Template) : ToolResult :=
  let templateList := String.intercalate "\n\n" (templates.map templateBlock)
  { content := [ContentItem.mk "text"
    ("Found " ++ toString templates.length ++ " templates:\n\n"
        ++ templateList)] }

/-! ### getDeliveryStats (src/index.js lines 259-310) -/

/-- One statistics field of the JSON body the provider returns.  The five
fields used here are counts, present as JSON numbers when present at all, so
a field is `absent` (key missing), `null`, or a number; the falsy values
among these are `absent`, `null` and `num 0`. -/
inductive StatField where
  | absent
  | null
  | num (n : Int)
deriving Repr, DecidableEq

/-- JavaScript truthiness of a statistics field. -/
def truthyField : StatField → Bool
  | .num n => n ≠ 0
  | _ => false

/-- The expression `data.X || 0`: the field itself when truthy, else 0 (for
a number `n`, `n || 0 = n` also when `n = 0`). -/
def fieldOrZero : StatField → Int
  | .num n => n
  | _ => 0

/-! The expression `((uniqueOpens / tracked) * 100).toFixed(1)` is evaluated
in IEEE-754 binary64: the division is rounded to the nearest double (ties to
even), the multiplication by 100 is rounded again, and `toFixed(1)` then
picks the integer number of tenths closest to the double's exact value, a
tie taking the larger.  The model below performs binary64 rounding exactly,
in integer arithmetic, as a significand–exponent pair `(m, E)` of value
`m * 2 ^ E` with `2 ^ 52 ≤ m ≤ 2 ^ 53` for nonzero results (the exponent
range is unbounded, which agrees with binary64 on every count ratio the
handler can compute: no overflow or subnormals there). -/

/-- `⌊log2 n⌋` by structural recursion on a fuel argument (so that it
evaluates by kernel reduction). -/
def log2Aux : Nat → Nat → Nat
  | 0, _ => 0
  | fuel + 1, n => if 2 ≤ n then log2Aux fuel (n / 2) + 1 else 0

/-- `⌊log2 n⌋` for `n ≥ 1` (0 for 0). -/
def natLog2 (n : Nat) : Nat := log2Aux n n

/-- Round `a / b` to the nearest integer, ties to even (`b > 0` in every
use). -/
def rneNat (a b : Nat) : Nat :=
  let d := a / b
  let r := a % b
  if 2 * r < b then d
  else if b < 2 * r then d + 1
  else if d % 2 = 0 then d else d + 1

/-- `⌊log2 (a / b)⌋` for positive naturals. -/
def ilog2Rat (a b : Nat) : Int :=
  let la := natLog2 a
  let lb := natLog2 b
  if 2 ^ lb * a < 2 ^ la * b then (la : Int) - lb - 1 else (la : Int) - lb

/-- Binary64 nearest-even rounding of the positive rational `a / b`:
the significand–exponent pair of the resulting double. -/
def flPos (a b : Nat) : Nat × Int :=
  let e := ilog2Rat a b
  let s := 52 - e
  let m := if 0 ≤ s then rneNat (a * 2 ^ s.toNat) b else rneNat a (b * 2 ^ (-s).toNat)
  (m, e - 52)

/-- The double produced by the source expression `(num / den) * 100` for
natural inputs: `fl(fl(num / den) * 100)` — division rounded to binary64,
then the product rounded again. -/
def flRateTimes100 (num den : Nat) : Nat × Int :=
  let p := flPos num den
  if p.1 = 0 then (0, 0)
  else
    let t := p.1 * 100
    let sh := natLog2 t - 52
    (rneNat t (2 ^ sh), p.2 + sh)

/-- The exact rational value of the double `(m, E)`. -/
def flValue (p : Nat × Int) : ℚ := (p.1 : ℚ) * 2 ^ p.2

/-- `toFixed(1)` on the nonnegative double `(m, E)`: the number of tenths
nearest to `m * 2 ^ E`, a tie taking the larger (ECMAScript picks the larger
candidate), computed as `⌊10 * m * 2 ^ E + 1 / 2⌋` in integer arithmetic. -/
def toFixedTenths : Nat × Int → Nat
  | (m, E) =>
    if 0 ≤ E then 10 * m * 2 ^ E.toNat
    else (20 * m + 2 ^ (-E).toNat) / (2 * 2 ^ (-E).toNat)

/-- `toFixed(1)` tenths of the magnitude of a negative double `(m, E)`:
for a negative value the larger candidate is the one nearer zero, so this is
`⌈10 * m * 2 ^ E - 1 / 2⌉` on the magnitude. -/
def toFixedTenthsNeg : Nat × Int → Nat
  | (m, E) =>
    if 0 ≤ E then 10 * m * 2 ^ E.toNat
    else (20 * m + 2 ^ (-E).toNat - 1) / (2 * 2 ^ (-E).toNat)

/-- Decimal rendering of a nonnegative number of tenths:
`showTenthsNat 455 = "45.5"`. -/
def showTenthsNat (t : Nat) : String :=
  toString (t / 10) ++ "." ++ toString (t % 10)

/-- Decimal rendering of a signed number of tenths. -/
def showTenths (t : Int) : String :=
  (if t < 0 then "-" else "") ++ toString (t.natAbs / 10) ++ "." ++ toString (t.natAbs % 10)

/-- `((num / den) * 100).toFixed(1)`: the binary64 evaluation of the ratio
times 100, rendered to one decimal (`den > 0` in every use; the sign of the
value is the sign of `num`, printed separately as `toFixed` does, so a
negative value rounding to zero tenths renders "-0.0"). -/
def pctFixed1 (num den : Int) : String :=
  if num < 0 then
    "-" ++ showTenthsNat (toFixedTenthsNeg (flRateTimes100 num.natAbs den.natAbs))
  else
    showTenthsNat (toFixedTenths (flRateTimes100 num.natAbs den.natAbs))

/-- The exact rational value of the double the source computes for
`(num / den) * 100`. -/
def jsRateValue (num den : Int) : ℚ :=
  if num < 0 then -(flValue (flRateTimes100 num.natAbs den.natAbs))
  else flValue (flRateTimes100 num.natAbs den.natAbs)

/-- `tracked > 0 ? ((uniqueOpens / tracked) * 100).toFixed(1) : '0.0'`. -/
def openRateOf (uniqueOpens tracked : Int) : String :=
  if tracked > 0 then pctFixed1 uniqueOpens tracked else "0.0"

/-- `totalTrackedLinks > 0 ? ((uniqueLinksClicked / totalTrackedLinks) * 100).toFixed(1) : '0.0'`. -/
def clickRateOf (uniqueLinksClicked totalTrackedLinks : Int) : String :=
  if totalTrackedLinks > 0 then pctFixed1 uniqueLinksClicked totalTrackedLinks else "0.0"

/-- Validated arguments of the getDeliveryStats tool. -/
structure StatsArgs where
  tag : Option String
  fromDate : Option String
  toDate : Option String
deriving Repr, DecidableEq

/-- The HTTP response of the stats fetch: status line plus the five JSON
body fields the handler reads. -/
structure StatsResponse where
  ok : Bool
  status : Nat
  statusText : String
  Sent : StatField
  Tracked : StatField
  UniqueOpens : StatField
  TotalTrackedLinksSent : StatField
  UniqueLinksClicked : StatField
deriving Repr, DecidableEq

/-- The error message built when `!response.ok`:
`` `API request failed: ${response.status} ${response.statusText}` ``.
The configuration is in scope there (the token was sent as a header) but
does not occur in the message. -/
def statsApiErrorMessage (env : Env) (status : Nat) (statusText : String) : String :=
  "API request failed: " ++ toString status ++ " " ++ statusText

/-- The getDeliveryStats handler after the fetch, given the response. -/
def getDeliveryStats (env : Env) (args : StatsArgs) (response : StatsResponse) :
    Except String ToolResult :=
  if ¬ response.ok then
    .error (statsApiErrorMessage env response.status response.statusText)
  else
    let sent := fieldOrZero response.Sent
    let tracked := fieldOrZero response.Tracked
    let uniqueOpens := fieldOrZero response.UniqueOpens
    let totalTrackedLinks := fieldOrZero response.TotalTrackedLinksSent
    let uniqueLinksClicked := fieldOrZero response.UniqueLinksClicked
    let openRate := openRateOf uniqueOpens tracked
    let clickRate := clickRateOf uniqueLinksClicked totalTrackedLinks
    .ok { content := [ContentItem.mk "text"
      ("Email Statistics Summary\n\n"
        ++ "Sent: " ++ toString sent ++ " emails\n"
        ++ "Open Rate: " ++ openRate ++ "% (" ++ toString uniqueOpens ++ "/"
          ++ toString tracked ++ " tracked emails)\n"
        ++ "Click Rate: " ++ clickRate ++ "% (" ++ toString uniqueLinksClicked ++ "/"
          ++ toString totalTrackedLinks ++ " tracked links)\n\n"
        ++ (if truthyStr args.fromDate || truthyStr args.toDate then
              "Period: " ++ strOr args.fromDate "start" ++ " to "
                ++ strOr args.toDate "now" ++ "\n"
            else "")
        ++ (if truthyStr args.tag then "Tag: " ++ jsShow args.tag ++ "\n" else ""))] }

/-! ### Error message construction (src/index.js lines 55-61, 283-285) -/

/-- The message built in the `initializeServices` catch block:
`` `Initialization failed: ${error.code ? `${error.code} - ` : ''}${error.message}` ``
when `error.code || error.message` is truthy, the fixed fallback text
otherwise.  The configuration is in scope but not interpolated. -/
def initErrorMessage (env : Env) (code message : Option String) : String :=
  if truthyStr code || truthyStr message then
    "Initialization failed: "
      ++ (if truthyStr code then jsShow code ++ " - " else "")
      ++ jsShow message
  else
    "Initialization failed: An unexpected error occurred"

/-- Modelled from the spec: a provider-call failure is "surfaced with
whatever status detail the provider gave" — the handlers in src/index.js
wrap `postmarkClient` calls in no try/catch, so the SDK error propagates to
the protocol SDK (outside this repository) unchanged and no message is
constructed from the configuration. -/
def providerErrorMessage (env : Env) (sdkMessage : String) : String := sdkMessage

/-! ### Spec-side formulations (from the claims' wording, for comparison) -/

/-- Joining blocks with a separator, written by recursion as in the claims
("blocks separated by a blank line", "names comma-separated"). -/
def specJoin (sep : String) : List String → String
  | [] => ""
  | [b] => b
  | b :: rest => b ++ sep ++ specJoin sep rest

/-- The per-template block exactly as claim C2 words it:
`"• {name}\n  - ID: {id}\n  - Alias: {alias|none}\n  - Subject: {subject|none}"`,
with "none" substituted when alias or subject is absent. -/
def claimedTemplateBlock (t : Template) : String :=
  "• " ++ t.Name ++ "\n  - ID: " ++ toString t.TemplateId
    ++ "\n  - Alias: " ++ (t.Alias).getD "none"
    ++ "\n  - Subject: " ++ (t.Subject).getD "none"

/-- The whole listTemplates text as claim C2 words it. -/
def claimedListText (ts : List Template) : String :=
  "Found " ++ toString ts.length ++ " templates:\n\n"
    ++ specJoin "\n\n" (ts.map claimedTemplateBlock)

/-- The per-template block of the amended claim C2: the handler wraps the
name in `**` (markdown bold) and substitutes "none" also for an empty alias
or subject. -/
def amendedTemplateBlock (t : Template) : String :=
  "• **" ++ t.Name ++ "**\n  - ID: " ++ toString t.TemplateId
    ++ "\n  - Alias: " ++ strOr t.Alias "none"
    ++ "\n  - Subject: " ++ strOr t.Subject "none"

/-- The whole listTemplates text of the amended claim C2. -/
def amendedListText (ts : List Template) : String :=
  "Found " ++ toString ts.length ++ " templates:\n\n"
    ++ specJoin "\n\n" (ts.map amendedTemplateBlock)

/-- The attachment name exactly as claim C3 words it: "fileName when given
and otherwise the final path segment (basename) of filePath" — the `??`
reading, under which a given-but-empty fileName is kept. -/
def claimedAttachmentName (att : AttachmentRequest) : String :=
  match att.fileName with
  | some s => s
  | none => basename att.filePath

/-- The sendEmail success text as claim C7 words it, given the resolved
attachment names (`none` when no attachments were supplied). -/
def claimedSendText (messageID «to» subject : String)
    (names : Option (List String)) : String :=
  "Email sent successfully!\nMessageID: " ++ messageID
    ++ "\nTo: " ++ «to» ++ "\nSubject: " ++ subject
    ++ (match names with
        | some ns => "\nAttachments: " ++ specJoin ", " ns
        | none => "")

/-- The rate as claim C4 words it: "numerator/denominator × 100 rounded to
one decimal place", via Mathlib's `round` on exact rationals (`round`
rounds a tie up, as `toFixed` does). -/
def claimedRate (num den : Int) : String :=
  showTenths (round ((1000 * num : ℚ) / (den : ℚ)))

/-! ### Helper lemmas -/

/-- The tail of a separated join: the separator before each element. -/
def tailJoin (sep : String) : List String → String
  | [] => ""
  | b :: rest => sep ++ b ++ tailJoin sep rest

theorem intercalate_go_eq (sep : String) :
    ∀ (l : List String) (acc : String),
      String.intercalate.go acc sep l = acc ++ tailJoin sep l := by
  intro l
  induction l with
  | nil => intro acc; simp [String.intercalate.go, tailJoin]
  | cons b rest ih =>
    intro acc
    simp only [String.intercalate.go, tailJoin, ih, String.append_assoc]

theorem specJoin_cons_tail (sep : String) :
    ∀ (rest : List String) (b : String),
      specJoin sep (b :: rest) = b ++ tailJoin sep rest := by
  intro rest
  induction rest with
  | nil => intro b; simp [specJoin, tailJoin]
  | cons c cs ih =>
    intro b
    simp only [specJoin, tailJoin, ih, String.append_assoc]

theorem intercalate_eq_specJoin (sep : String) (l : List String) :
    String.intercalate sep l = specJoin sep l := by
  cases l with
  | nil => rfl
  | cons a as =>
    simp only [String.intercalate, intercalate_go_eq, specJoin_cons_tail]

theorem lookup_val_mem {α β : Type} [BEq α] (a : α) :
    ∀ (l : List (α × β)) (b : β), l.lookup a = some b → b ∈ l.map Prod.snd := by
  intro l
  induction l with
  | nil => intro b h; simp [List.lookup] at h
  | cons p rest ih =>
    intro b h
    simp only [List.lookup] at h
    cases hpa : (a == p.1) with
    | true =>
      rw [hpa] at h
      have hb : p.2 = b := Option.some.inj h
      simp only [List.map]
      exact hb ▸ List.mem_cons_self _ _
    | false =>
      rw [hpa] at h
      simp only [List.map]
      exact List.mem_cons_of_mem _ (ih b h)

theorem lookup_eq_none_of_not_mem {l : List (String × String)} {k : String}
    (h : k ∉ l.map Prod.fst) : l.lookup k = none := by
  induction l with
  | nil => rfl
  | cons p rest ih =>
    simp only [List.map, List.mem_cons, not_or] at h
    simp only [List.lookup]
    have hk : (k == p.1) = false := by
      simp only [beq_eq_false_iff_ne, ne_eq]
      exact h.1
    rw [hk]
    exact ih h.2

theorem encodeAttachment_name (fs : String → Option (List Nat))
    (att : AttachmentRequest) (enc : EncodedAttachment)
    (h : encodeAttachment fs att = .ok enc) : enc.Name = resolveName att := by
  unfold encodeAttachment at h
  cases hf : fs att.filePath with
  | none => rw [hf] at h; exact absurd h (by simp)
  | some bytes => rw [hf] at h; simp at h; rw [← h]

theorem encodeAttachments_names (fs : String → Option (List Nat)) :
    ∀ (l : List AttachmentRequest) (encs : List EncodedAttachment),
      encodeAttachments fs l = .ok encs →
      encs.map EncodedAttachment.Name = l.map resolveName := by
  intro l
  induction l with
  | nil => intro encs h; simp [encodeAttachments] at h; simp [← h]
  | cons att rest ih =>
    intro encs h
    simp only [encodeAttachments] at h
    cases he : encodeAttachment fs att with
    | error e => rw [he] at h; exact absurd h (by simp)
    | ok enc =>
      rw [he] at h
      cases hr : encodeAttachments fs rest with
      | error e => rw [hr] at h; exact absurd h (by simp)
      | ok encs2 =>
        rw [hr] at h
        simp at h
        rw [← h]
        simp [encodeAttachment_name fs att enc he, ih encs2 hr]

theorem truthyNum_isSome {o : Option Int} (h : truthyNum o = true) : o.isSome := by
  cases o with
  | none => simp [truthyNum] at h
  | some n => rfl

theorem toFixedTenths_eq_round (m : Nat) (E : Int) :
    ((toFixedTenths (m, E) : ℕ) : ℤ) = round (10 * flValue (m, E)) := by
  show (((if 0 ≤ E then 10 * m * 2 ^ E.toNat
      else (20 * m + 2 ^ (-E).toNat) / (2 * 2 ^ (-E).toNat) : ℕ)) : ℤ)
    = round (10 * ((m : ℚ) * 2 ^ E))
  by_cases hE : 0 ≤ E
  · obtain ⟨k, rfl⟩ : ∃ k : ℕ, E = (k : ℤ) := ⟨E.toNat, (Int.toNat_of_nonneg hE).symm⟩
    rw [if_pos hE]
    have hv : (10 : ℚ) * ((m : ℚ) * 2 ^ ((k : ℕ) : ℤ)) = ((10 * m * 2 ^ k : ℕ) : ℚ) := by
      rw [zpow_natCast]
      push_cast
      ring
    rw [hv, round_natCast]
    simp
  · rw [if_neg hE]
    set n : ℕ := (-E).toNat with hn
    have hEn : E = -(n : ℤ) := by
      rw [hn, Int.toNat_of_nonneg (by omega : (0 : ℤ) ≤ -E)]
      omega
    have hP : ((2 ^ n : ℕ) : ℚ) ≠ 0 := by positivity
    have hv : (10 : ℚ) * ((m : ℚ) * 2 ^ E) + 1 / 2
        = ((20 * m + 2 ^ n : ℤ) : ℚ) / (((2 * 2 ^ n : ℕ) : ℕ) : ℚ) := by
      rw [hEn, zpow_neg, zpow_natCast]
      push_cast
      field_simp
      ring
    rw [round_eq, hv, Rat.floor_intCast_div_natCast]
    have : ((20 * m + 2 ^ n : ℤ)) = (((20 * m + 2 ^ n : ℕ) : ℤ)) := by push_cast; ring
    rw [this, ← Int.ofNat_ediv]

theorem pctFixed1_eq_round_fl (num den : Int) (h : 0 ≤ num) :
    pctFixed1 num den = showTenths (round (10 * jsRateValue num den)) := by
  unfold pctFixed1 jsRateValue
  rw [if_neg (not_lt.mpr h), if_neg (not_lt.mpr h)]
  obtain ⟨m, E⟩ := flRateTimes100 num.natAbs den.natAbs
  rw [← toFixedTenths_eq_round]
  have hnn : ¬ (((toFixedTenths (m, E) : ℕ) : ℤ) < 0) :=
    not_lt.mpr (Int.natCast_nonneg _)
  simp [showTenths, showTenthsNat, hnn]

theorem buildSendEmailData_ok (env : Env) (fs : String → Option (List Nat))
    (args : SendEmailArgs) (d : SendEmailData)
    (h : buildSendEmailData env fs args = .ok d) :
    (attachGuard args.attachments = false ∧ d = sendEmailBase env args) ∨
    (attachGuard args.attachments = true ∧ ∃ encs,
      encodeAttachments fs (args.attachments.getD []) = .ok encs ∧
      d = { sendEmailBase env args with Attachments := some encs }) := by
  unfold buildSendEmailData at h
  cases hg : attachGuard args.attachments with
  | false =>
    rw [hg] at h
    simp at h
    exact Or.inl ⟨rfl, h.symm⟩
  | true =>
    rw [hg] at h
    simp only [if_true] at h
    cases he : encodeAttachments fs (args.attachments.getD []) with
    | error e => rw [he] at h; exact absurd h (by simp)
    | ok encs =>
      rw [he] at h
      simp at h
      exact Or.inr ⟨rfl, encs, rfl, h.symm⟩

/-! ### Concrete inputs used by instantiation theorems -/

/-- A concrete configuration. -/
def envW : Env := ⟨"token-a", "sender@example.com", "outbound"⟩

/-- A concrete filesystem on which every path is readable with content
`[104, 105]` (the bytes of "hi", base64 "aGk="). -/
def fsW : String → Option (List Nat) := fun _ => some [104, 105]

/-! ### Claim theorems -/

/-- Claim C5: the resolved contentType is determined by the lowercased file
extension via the fixed MIME table; any extension outside the table, or a
path with no extension, resolves to application/octet-stream; resolution
never fails and never produces an empty string. -/
theorem mime_type_resolution (p : String) :
    (∀ e c, (e, c) ∈ MIME_TYPES → toLowerCase (extname p) = e → contentTypeFor p = c) ∧
    (toLowerCase (extname p) ∉ MIME_TYPES.map Prod.fst →
      contentTypeFor p = "application/octet-stream") ∧
    contentTypeFor p ≠ "" := by
  refine ⟨?_, ?_, ?_⟩
  · intro e c hmem hext
    unfold contentTypeFor
    rw [hext]
    fin_cases hmem <;> rfl
  · intro hnot
    unfold contentTypeFor
    rw [lookup_eq_none_of_not_mem hnot]
    rfl
  · unfold contentTypeFor
    cases hl : MIME_TYPES.lookup (toLowerCase (extname p)) with
    | none => decide
    | some m =>
      have hm := lookup_val_mem (toLowerCase (extname p)) MIME_TYPES m hl
      have hall : ∀ x ∈ MIME_TYPES.map Prod.snd, x ≠ "" := by decide
      exact hall m hm

/-- Instantiation of `mime_type_resolution` at a `.exe` path (unlisted
extension) and a `.csv` path (listed extension). -/
theorem mime_type_resolution_witness :
    (toLowerCase (extname "/tmp/report.exe") ∉ MIME_TYPES.map Prod.fst ∧
      contentTypeFor "/tmp/report.exe" = "application/octet-stream") ∧
    ((".csv", "text/csv") ∈ MIME_TYPES ∧ toLowerCase (extname "/tmp/r.csv") = ".csv" ∧
      contentTypeFor "/tmp/r.csv" = "text/csv") :=
  ⟨⟨by decide, (mime_type_resolution "/tmp/report.exe").2.1 (by decide)⟩,
   ⟨by decide, by decide,
     (mime_type_resolution "/tmp/r.csv").1 ".csv" "text/csv" (by decide) (by decide)⟩⟩

/-- Claim C8: every error message this code constructs (initialization
failure, provider-call failure pass-through, stats HTTP failure) is
independent of the server token: two runs differing only in the token build
the same messages, and the whole stats handler output is unchanged. -/
theorem error_messages_token_free :
    (∀ (env : Env) (t : String) (code message : Option String),
      initErrorMessage { env with serverToken := t } code message
        = initErrorMessage env code message) ∧
    (∀ (env : Env) (t : String) (status : Nat) (statusText : String),
      statsApiErrorMessage { env with serverToken := t } status statusText
        = statsApiErrorMessage env status statusText) ∧
    (∀ (env : Env) (t m : String),
      providerErrorMessage { env with serverToken := t } m
        = providerErrorMessage env m) ∧
    (∀ (env : Env) (t : String) (args : StatsArgs) (resp : StatsResponse),
      getDeliveryStats { env with serverToken := t } args resp
        = getDeliveryStats env args resp) :=
  ⟨fun _ _ _ _ => rfl, fun _ _ _ _ => rfl, fun _ _ _ => rfl, fun _ _ _ _ => rfl⟩

/-- Claim C9: presence of a template reference is decided by truthiness:
templateId 0 with no alias is rejected with the "Either templateId or
templateAlias must be provided" error, and templateId 0 with a (non-empty)
alias sends using the alias. -/
theorem template_zero_truthiness (env : Env) (toAddr : String) (tm : TemplateModel)
    (f tg : Option String) (a : String) (ha : a.isEmpty = false) :
    sendEmailWithTemplate env ⟨toAddr, some 0, none, tm, f, tg⟩
      = .error "Either templateId or templateAlias must be provided" ∧
    sendEmailWithTemplate env ⟨toAddr, some 0, some a, tm, f, tg⟩
      = .ok { From := strOr f env.defaultSender
              To := toAddr
              TemplateModel := tm
              MessageStream := env.defaultMessageStream
              TrackOpens := true
              TrackLinks := "HtmlAndText"
              TemplateId := none
              TemplateAlias := some a
              Tag := if truthyStr tg then tg else none } := by
  constructor
  · simp [sendEmailWithTemplate, truthyNum, truthyStr]
  · simp [sendEmailWithTemplate, sendTemplateBase, truthyNum, truthyStr, ha]

/-- Instantiation of `template_zero_truthiness` at templateId 0 with and
without the alias "welcome". -/
theorem template_zero_truthiness_witness :
    ("welcome".isEmpty = false) ∧
    sendEmailWithTemplate envW ⟨"user@example.com", some 0, none, [], none, none⟩
      = .error "Either templateId or templateAlias must be provided" ∧
    sendEmailWithTemplate envW ⟨"user@example.com", some 0, some "welcome", [], none, none⟩
      = .ok ⟨"sender@example.com", "user@example.com", [], "outbound", true,
          "HtmlAndText", none, some "welcome", none⟩ :=
  ⟨rfl,
   (template_zero_truthiness envW "user@example.com" [] none none "welcome" rfl).1,
   (template_zero_truthiness envW "user@example.com" [] none none "welcome" rfl).2⟩

/-- Claim C1, counterexample: an invocation providing BOTH templateId and
templateAlias is not rejected — the dispatch succeeds, sending with the
numeric id (the claim asserts it fails with InvalidArgument). -/
theorem template_both_provided_succeeds :
    sendEmailWithTemplate envW
      ⟨"user@example.com", some 1, some "welcome", [], none, none⟩
      = .ok ⟨"sender@example.com", "user@example.com", [], "outbound", true,
          "HtmlAndText", some 1, none, none⟩ := rfl

/-- Claim C1 as amended: only the neither-provided case is rejected (with
the InvalidArgument error, before any provider call, since no payload is
produced); every successful dispatch's payload carries exactly one template
reference, and when templateId is (truthily) present it is the one used. -/
theorem template_ref_exclusive (env : Env) (args : SendTemplateArgs) :
    (truthyNum args.templateId = false ∧ truthyStr args.templateAlias = false →
      sendEmailWithTemplate env args
        = .error "Either templateId or templateAlias must be provided") ∧
    (∀ d, sendEmailWithTemplate env args = .ok d →
      ((∃ n, d.TemplateId = some n) ∧ d.TemplateAlias = none) ∨
      (d.TemplateId = none ∧ ∃ a, d.TemplateAlias = some a)) ∧
    (truthyNum args.templateId = true →
      ∀ d, sendEmailWithTemplate env args = .ok d →
        d.TemplateId = args.templateId ∧ d.TemplateAlias = none) := by
  refine ⟨?_, ?_, ?_⟩
  · rintro ⟨h1, h2⟩
    simp [sendEmailWithTemplate, h1, h2]
  · intro d hd
    unfold sendEmailWithTemplate at hd
    split at hd
    · exact absurd hd (by simp)
    · rename_i hguard
      by_cases hid : truthyNum args.templateId = true
      · simp only [hid, if_true] at hd
        simp at hd
        cases ho : args.templateId with
        | none => rw [ho] at hid; simp [truthyNum] at hid
        | some n =>
          left
          rw [← hd]
          exact ⟨⟨n, by simp [ho]⟩, rfl⟩
      · simp only [hid, if_false] at hd
        simp at hd
        have hal : truthyStr args.templateAlias = true := by
          rcases Decidable.not_and_iff_or_not.mp hguard with hc | hc
          · exact absurd (by simpa using hc) hid
          · simpa using hc
        cases ha : args.templateAlias with
        | none => rw [ha] at hal; simp [truthyStr] at hal
        | some a =>
          right
          rw [← hd]
          exact ⟨rfl, a, by simp [ha]⟩
  · intro hid d hd
    unfold sendEmailWithTemplate at hd
    split at hd
    · exact absurd hd (by simp)
    · simp only [hid, if_true] at hd
      simp at hd
      rw [← hd]
      exact ⟨rfl, rfl⟩

/-- Instantiation of `template_ref_exclusive` at a neither-provided input. -/
theorem template_ref_exclusive_witness :
    (truthyNum (some (0 : Int)) = false ∧ truthyStr (none : Option String) = false) ∧
    sendEmailWithTemplate envW ⟨"user@example.com", some 0, none, [], none, none⟩
      = .error "Either templateId or templateAlias must be provided" :=
  ⟨⟨rfl, rfl⟩,
   (template_ref_exclusive envW ⟨"user@example.com", some 0, none, [], none, none⟩).1
     ⟨rfl, rfl⟩⟩

/-- Claim C2, counterexample: the handler wraps the template name in `**`
(markdown bold) and substitutes "none" also for an empty (not only an
absent) alias, so the result text differs from the claimed
`"• {name}\n  - ID: ..."` format at this input. -/
theorem list_templates_text_differs :
    listTemplates [⟨"Basic", 1, some "", none⟩]
      ≠ { content := [ContentItem.mk "text"
          (claimedListText [⟨"Basic", 1, some "", none⟩])] } := by decide

/-- Claim C2 as amended: the listTemplates result text is
`"Found {n} templates:\n\n"` followed by one block per template, in the
provider's order, of the form
`"• **{name}**\n  - ID: {id}\n  - Alias: {alias|none}\n  - Subject: {subject|none}"`
("none" substituted when alias or subject is absent or empty), blocks
separated by a blank line. -/
theorem list_templates_text (ts : List Template) :
    listTemplates ts = { content := [ContentItem.mk "text" (amendedListText ts)] } := by
  unfold listTemplates amendedListText
  rw [intercalate_eq_specJoin]
  rfl

/-- Claim C6: every payload that reaches the provider has TrackOpens true,
TrackLinks "HtmlAndText" and MessageStream equal to the process-wide default,
regardless of the invocation's arguments, and carries an Attachments field
exactly when the invocation supplied a non-empty attachments list (the
template payload never carries one). -/
theorem payload_policy :
    (∀ (env : Env) (fs : String → Option (List Nat)) (args : SendEmailArgs)
        (d : SendEmailData), buildSendEmailData env fs args = .ok d →
      d.TrackOpens = true ∧ d.TrackLinks = "HtmlAndText"
        ∧ d.MessageStream = env.defaultMessageStream
        ∧ d.Attachments.isSome = attachGuard args.attachments) ∧
    (∀ (env : Env) (args : SendTemplateArgs) (d : SendTemplateData),
      sendEmailWithTemplate env args = .ok d →
      d.TrackOpens = true ∧ d.TrackLinks = "HtmlAndText"
        ∧ d.MessageStream = env.defaultMessageStream) := by
  constructor
  · intro env fs args d h
    rcases buildSendEmailData_ok env fs args d h with ⟨hg, rfl⟩ | ⟨hg, encs, he, rfl⟩
    · simp [sendEmailBase, hg]
    · simp [sendEmailBase, hg]
  · intro env args d h
    unfold sendEmailWithTemplate at h
    split at h
    · exact absurd h (by simp)
    · split at h <;> (simp at h; rw [← h]; exact ⟨rfl, rfl, rfl⟩)

/-- Instantiation of `payload_policy` at a no-attachment send and a template
send. -/
theorem payload_policy_witness :
    (buildSendEmailData envW fsW ⟨"a@example.com", "Hi", "Hello", none, none, none, none⟩
        = .ok (sendEmailBase envW ⟨"a@example.com", "Hi", "Hello", none, none, none, none⟩) ∧
      (sendEmailBase envW ⟨"a@example.com", "Hi", "Hello", none, none, none, none⟩).TrackOpens = true ∧
      (sendEmailBase envW ⟨"a@example.com", "Hi", "Hello", none, none, none, none⟩).TrackLinks = "HtmlAndText" ∧
      (sendEmailBase envW ⟨"a@example.com", "Hi", "Hello", none, none, none, none⟩).MessageStream = "outbound" ∧
      (sendEmailBase envW ⟨"a@example.com", "Hi", "Hello", none, none, none, none⟩).Attachments.isSome = false) ∧
    (sendEmailWithTemplate envW ⟨"user@example.com", some 7, none, [], none, none⟩
        = .ok { sendTemplateBase envW ⟨"user@example.com", some 7, none, [], none, none⟩
            with TemplateId := some 7 } ∧
      ({ sendTemplateBase envW ⟨"user@example.com", some 7, none, [], none, none⟩
            with TemplateId := some 7 } : SendTemplateData).TrackOpens = true) :=
  ⟨⟨rfl,
    ((payload_policy.1 envW fsW ⟨"a@example.com", "Hi", "Hello", none, none, none, none⟩ _ rfl).1),
    ((payload_policy.1 envW fsW ⟨"a@example.com", "Hi", "Hello", none, none, none, none⟩ _ rfl).2.1),
    ((payload_policy.1 envW fsW ⟨"a@example.com", "Hi", "Hello", none, none, none, none⟩ _ rfl).2.2.1),
    ((payload_policy.1 envW fsW ⟨"a@example.com", "Hi", "Hello", none, none, none, none⟩ _ rfl).2.2.2)⟩,
   ⟨rfl,
    ((payload_policy.2 envW ⟨"user@example.com", some 7, none, [], none, none⟩ _ rfl).1)⟩⟩

/-- Claim C7: the success text of sendEmail is
`"Email sent successfully!\nMessageID: {id}\nTo: {to}\nSubject: {subject}"`
followed by `"\nAttachments: {name1, name2, ...}"` exactly when a non-empty
attachments list was supplied. -/
theorem send_result_text (env : Env) (fs : String → Option (List Nat))
    (args : SendEmailArgs) (messageID : String) (d : SendEmailData) (r : ToolResult)
    (h : sendEmail env fs args messageID = .ok (d, r)) :
    r = { content := [ContentItem.mk "text"
        (claimedSendText messageID args.«to» args.subject
          (d.Attachments.map (fun encs => encs.map EncodedAttachment.Name)))] } ∧
    (d.Attachments.map (fun encs => encs.map EncodedAttachment.Name)).isSome
      = attachGuard args.attachments := by
  unfold sendEmail at h
  cases hb : buildSendEmailData env fs args with
  | error e => rw [hb] at h; exact absurd h (by simp)
  | ok d2 =>
    rw [hb] at h
    simp at h
    obtain ⟨hd, hr⟩ := h
    subst hd
    constructor
    · rw [← hr]
      cases hA : d2.Attachments with
      | none => simp [claimedSendText, attachInfo, hA]
      | some encs => simp [claimedSendText, attachInfo, hA, intercalate_eq_specJoin]
    · rcases buildSendEmailData_ok env fs args d2 hb with ⟨hg, rfl⟩ | ⟨hg, encs, he, rfl⟩
      · simp [sendEmailBase, hg]
      · simp [sendEmailBase, hg]

/-- Instantiation of `send_result_text` at a one-attachment send. -/
theorem send_result_text_witness :
    sendEmail envW fsW
        ⟨"a@example.com", "Hi", "Hello", none, none, none, some [⟨"/tmp/r.csv", none⟩]⟩
        "msg-1"
      = .ok (⟨"sender@example.com", "a@example.com", "Hi", "Hello", "outbound", true,
              "HtmlAndText", none, none, some [⟨"r.csv", "aGk=", "text/csv"⟩]⟩,
             ⟨[ContentItem.mk "text"
               ("Email sent successfully!\nMessageID: msg-1\nTo: a@example.com\nSubject: Hi\nAttachments: r.csv")]⟩) ∧
    (⟨[ContentItem.mk "text"
        ("Email sent successfully!\nMessageID: msg-1\nTo: a@example.com\nSubject: Hi\nAttachments: r.csv")]⟩ : ToolResult)
      = { content := [ContentItem.mk "text"
          (claimedSendText "msg-1" "a@example.com" "Hi" (some ["r.csv"]))] } :=
  ⟨rfl,
   (send_result_text envW fsW
      ⟨"a@example.com", "Hi", "Hello", none, none, none, some [⟨"/tmp/r.csv", none⟩]⟩
      "msg-1" _ _ rfl).1⟩

/-- Claim C3, counterexample: with a given but empty fileName override the
handler falls back to the basename (`fileName || basename`), while the claim
("name equals fileName when given") demands the empty string. -/
theorem attachment_name_empty_override :
    buildSendEmailData envW fsW
        ⟨"a@example.com", "Hi", "Hello", none, none, none,
          some [⟨"/tmp/r.csv", some ""⟩]⟩
      = .ok ⟨"sender@example.com", "a@example.com", "Hi", "Hello", "outbound",
          true, "HtmlAndText", none, none, some [⟨"r.csv", "aGk=", "text/csv"⟩]⟩ ∧
    claimedAttachmentName ⟨"/tmp/r.csv", some ""⟩ = "" ∧
    ("r.csv" : String) ≠ "" :=
  ⟨rfl, rfl, by decide⟩

/-- Claim C3 as amended: for a well-formed send with a non-empty, fully
readable attachments list, the encoded attachment list and the name list in
the result text preserve input order, and each name is fileName when given
and non-empty, otherwise the basename of filePath (JavaScript `||`). -/
theorem attachment_names_resolved (env : Env) (fs : String → Option (List Nat))
    (args : SendEmailArgs) (messageID : String) (l : List AttachmentRequest)
    (d : SendEmailData) (r : ToolResult)
    (hl : args.attachments = some l) (hne : l ≠ [])
    (h : sendEmail env fs args messageID = .ok (d, r)) :
    (∃ encs, d.Attachments = some encs ∧
      encs.map EncodedAttachment.Name = l.map resolveName) ∧
    r = { content := [ContentItem.mk "text"
        (claimedSendText messageID args.«to» args.subject
          (some (l.map resolveName)))] } := by
  unfold sendEmail at h
  cases hb : buildSendEmailData env fs args with
  | error e => rw [hb] at h; exact absurd h (by simp)
  | ok d2 =>
    rw [hb] at h
    simp at h
    obtain ⟨hd, hr⟩ := h
    subst hd
    rcases buildSendEmailData_ok env fs args d2 hb with ⟨hg, rfl⟩ | ⟨hg, encs, he, rfl⟩
    · rw [hl] at hg
      simp [attachGuard, List.length_pos] at hg
      exact absurd hg hne
    · rw [hl] at he
      simp at he
      have hnames := encodeAttachments_names fs l encs he
      constructor
      · exact ⟨encs, rfl, hnames⟩
      · rw [← hr]
        simp [claimedSendText, attachInfo, intercalate_eq_specJoin, hnames]

/-- Instantiation of `attachment_names_resolved` at a two-attachment send
(one name overridden, one defaulted). -/
theorem attachment_names_resolved_witness :
    ((⟨"a@example.com", "Hi", "Hello", none, none, none,
        some [⟨"/tmp/r.csv", some "report.csv"⟩, ⟨"/tmp/b.pdf", none⟩]⟩ :
          SendEmailArgs).attachments
      = some [⟨"/tmp/r.csv", some "report.csv"⟩, ⟨"/tmp/b.pdf", none⟩]) ∧
    ([⟨"/tmp/r.csv", some "report.csv"⟩, ⟨"/tmp/b.pdf", none⟩] :
        List AttachmentRequest) ≠ [] ∧
    (∃ encs, (⟨"sender@example.com", "a@example.com", "Hi", "Hello", "outbound",
        true, "HtmlAndText", none, none,
        some [⟨"report.csv", "aGk=", "text/csv"⟩, ⟨"b.pdf", "aGk=", "application/pdf"⟩]⟩ :
          SendEmailData).Attachments = some encs ∧
      encs.map EncodedAttachment.Name
        = [⟨"/tmp/r.csv", some "report.csv"⟩,
           (⟨"/tmp/b.pdf", none⟩ : AttachmentRequest)].map resolveName) :=
  ⟨rfl, by decide,
   (attachment_names_resolved envW fsW
      ⟨"a@example.com", "Hi", "Hello", none, none, none,
        some [⟨"/tmp/r.csv", some "report.csv"⟩, ⟨"/tmp/b.pdf", none⟩]⟩
      "msg-2" [⟨"/tmp/r.csv", some "report.csv"⟩, ⟨"/tmp/b.pdf", none⟩] _ _
      rfl (by decide) rfl).1⟩

/-- Claim C4, counterexample: at UniqueOpens 3, Tracked 2000 the handler
reports "0.1" — `fl(3/2000)` rounds up to `6917529027641082 * 2 ^ -62`,
the multiplication by 100 re-rounds down to `5404319552844595 * 2 ^ -55`,
which lies below 0.15, so `toFixed(1)` picks "0.1" — while
3/2000 × 100 = 0.15 rounded to one decimal place is "0.2" as the claim
demands. -/
theorem stats_rate_not_exact_rounding :
    openRateOf 3 2000 = "0.1" ∧ claimedRate 3 2000 = "0.2" ∧
    ("0.1" : String) ≠ "0.2" := by
  refine ⟨rfl, ?_, by decide⟩
  unfold claimedRate
  have h32 : (1000 : ℚ) * ((3 : ℤ) : ℚ) / (((2000 : ℤ)) : ℚ) + 1 / 2
      = ((2 : ℤ) : ℚ) := by norm_num
  rw [round_eq, h32, Int.floor_intCast]
  rfl

/-- Claim C4 as amended: with counts (non-negative resolved values), a zero
tracked count gives open rate "0.0", a zero tracked-links count gives click
rate "0.0", and otherwise each rate is the IEEE-754 double-precision value
of numerator/denominator × 100 (division and multiplication each rounded to
nearest binary64) rounded to one decimal place (nearest tenth, a tie to the
larger) — which can differ in the last digit from exact rational rounding,
e.g. 3/2000 prints "0.1", not "0.2"; the handler never fails on a zero
denominator. -/
theorem delivery_stats_rates (env : Env) (args : StatsArgs) (resp : StatsResponse)
    (hok : resp.ok = true)
    (hs : 0 ≤ fieldOrZero resp.UniqueOpens)
    (htr : 0 ≤ fieldOrZero resp.Tracked)
    (hc : 0 ≤ fieldOrZero resp.UniqueLinksClicked)
    (hli : 0 ≤ fieldOrZero resp.TotalTrackedLinksSent) :
    (fieldOrZero resp.Tracked = 0 →
      openRateOf (fieldOrZero resp.UniqueOpens) (fieldOrZero resp.Tracked) = "0.0") ∧
    (fieldOrZero resp.TotalTrackedLinksSent = 0 →
      clickRateOf (fieldOrZero resp.UniqueLinksClicked)
        (fieldOrZero resp.TotalTrackedLinksSent) = "0.0") ∧
    (fieldOrZero resp.Tracked ≠ 0 →
      openRateOf (fieldOrZero resp.UniqueOpens) (fieldOrZero resp.Tracked)
        = showTenths (round (10 * jsRateValue (fieldOrZero resp.UniqueOpens)
            (fieldOrZero resp.Tracked)))) ∧
    (fieldOrZero resp.TotalTrackedLinksSent ≠ 0 →
      clickRateOf (fieldOrZero resp.UniqueLinksClicked)
          (fieldOrZero resp.TotalTrackedLinksSent)
        = showTenths (round (10 * jsRateValue (fieldOrZero resp.UniqueLinksClicked)
            (fieldOrZero resp.TotalTrackedLinksSent)))) ∧
    (getDeliveryStats env args resp).isOk = true := by
  refine ⟨?_, ?_, ?_, ?_, ?_⟩
  · intro h0; simp [openRateOf, h0]
  · intro h0; simp [clickRateOf, h0]
  · intro hne
    have hpos : 0 < fieldOrZero resp.Tracked := lt_of_le_of_ne htr (Ne.symm hne)
    rw [openRateOf, if_pos hpos]
    exact pctFixed1_eq_round_fl _ _ hs
  · intro hne
    have hpos : 0 < fieldOrZero resp.TotalTrackedLinksSent :=
      lt_of_le_of_ne hli (Ne.symm hne)
    rw [clickRateOf, if_pos hpos]
    exact pctFixed1_eq_round_fl _ _ hc
  · simp [getDeliveryStats, hok, Except.isOk, Except.toBool]

/-- Instantiation of `delivery_stats_rates` at the response
{Sent 100, Tracked 99, UniqueOpens 45, TotalTrackedLinksSent 99,
UniqueLinksClicked 15}: open rate "45.5", click rate "15.2". -/
theorem delivery_stats_rates_witness :
    (getDeliveryStats envW ⟨none, none, none⟩
      ⟨true, 200, "OK", .num 100, .num 99, .num 45, .num 99, .num 15⟩).isOk = true ∧
    openRateOf 45 99 = showTenths (round (10 * jsRateValue 45 99)) ∧
    clickRateOf 15 99 = showTenths (round (10 * jsRateValue 15 99)) ∧
    openRateOf 45 99 = "45.5" ∧
    clickRateOf 15 99 = "15.2" :=
  ⟨(delivery_stats_rates envW ⟨none, none, none⟩
      ⟨true, 200, "OK", .num 100, .num 99, .num 45, .num 99, .num 15⟩
      rfl (by decide) (by decide) (by decide) (by decide)).2.2.2.2,
   (delivery_stats_rates envW ⟨none, none, none⟩
      ⟨true, 200, "OK", .num 100, .num 99, .num 45, .num 99, .num 15⟩
      rfl (by decide) (by decide) (by decide) (by decide)).2.2.1 (by decide),
   (delivery_stats_rates envW ⟨none, none, none⟩
      ⟨true, 200, "OK", .num 100, .num 99, .num 45, .num 99, .num 15⟩
      rfl (by decide) (by decide) (by decide) (by decide)).2.2.2.1 (by decide),
   rfl, rfl⟩

/-- Claim C10: on a successful (ok) response, each of the five statistics
fields that is falsy (absent, null, or 0) is reported as 0 — the handler
output equals the output on the same response with that field set to the
number 0 — the handler never fails, and a falsy denominator makes the
corresponding rate "0.0". -/
theorem stats_falsy_fields_default (env : Env) (args : StatsArgs)
    (resp : StatsResponse) (hok : resp.ok = true) :
    (getDeliveryStats env args resp).isOk = true ∧
    (truthyField resp.Sent = false → fieldOrZero resp.Sent = 0 ∧
      getDeliveryStats env args resp
        = getDeliveryStats env args { resp with Sent := .num 0 }) ∧
    (truthyField resp.Tracked = false → fieldOrZero resp.Tracked = 0 ∧
      getDeliveryStats env args resp
        = getDeliveryStats env args { resp with Tracked := .num 0 }) ∧
    (truthyField resp.UniqueOpens = false → fieldOrZero resp.UniqueOpens = 0 ∧
      getDeliveryStats env args resp
        = getDeliveryStats env args { resp with UniqueOpens := .num 0 }) ∧
    (truthyField resp.TotalTrackedLinksSent = false →
      fieldOrZero resp.TotalTrackedLinksSent = 0 ∧
      getDeliveryStats env args resp
        = getDeliveryStats env args { resp with TotalTrackedLinksSent := .num 0 }) ∧
    (truthyField resp.UniqueLinksClicked = false →
      fieldOrZero resp.UniqueLinksClicked = 0 ∧
      getDeliveryStats env args resp
        = getDeliveryStats env args { resp with UniqueLinksClicked := .num 0 }) ∧
    (truthyField resp.Tracked = false →
      openRateOf (fieldOrZero resp.UniqueOpens) (fieldOrZero resp.Tracked) = "0.0") ∧
    (truthyField resp.TotalTrackedLinksSent = false →
      clickRateOf (fieldOrZero resp.UniqueLinksClicked)
        (fieldOrZero resp.TotalTrackedLinksSent) = "0.0") := by
  have hzero : ∀ f : StatField, truthyField f = false → fieldOrZero f = 0 := by
    intro f hf
    cases f with
    | absent => rfl
    | null => rfl
    | num n => simp [truthyField] at hf; simp [fieldOrZero, hf]
  refine ⟨?_, ?_, ?_, ?_, ?_, ?_, ?_, ?_⟩
  · simp [getDeliveryStats, hok, Except.isOk, Except.toBool]
  · intro hf
    refine ⟨hzero _ hf, ?_⟩
    simp only [getDeliveryStats]
    rw [hzero _ hf]
    rfl
  · intro hf
    refine ⟨hzero _ hf, ?_⟩
    simp only [getDeliveryStats]
    rw [hzero _ hf]
    rfl
  · intro hf
    refine ⟨hzero _ hf, ?_⟩
    simp only [getDeliveryStats]
    rw [hzero _ hf]
    rfl
  · intro hf
    refine ⟨hzero _ hf, ?_⟩
    simp only [getDeliveryStats]
    rw [hzero _ hf]
    rfl
  · intro hf
    refine ⟨hzero _ hf, ?_⟩
    simp only [getDeliveryStats]
    rw [hzero _ hf]
    rfl
  · intro hf
    rw [hzero _ hf]
    simp [openRateOf]
  · intro hf
    rw [hzero _ hf]
    simp [clickRateOf]

/-- Instantiation of `stats_falsy_fields_default` at a response with Sent
null, Tracked absent, UniqueOpens 0, TotalTrackedLinksSent null. -/
theorem stats_falsy_fields_default_witness :
    (getDeliveryStats envW ⟨none, none, none⟩
      ⟨true, 200, "OK", .null, .absent, .num 0, .null, .num 3⟩).isOk = true ∧
    fieldOrZero StatField.null = 0 ∧
    openRateOf (fieldOrZero (StatField.num 0)) (fieldOrZero StatField.absent) = "0.0" ∧
    clickRateOf (fieldOrZero (StatField.num 3)) (fieldOrZero StatField.null) = "0.0" :=
  ⟨(stats_falsy_fields_default envW ⟨none, none, none⟩
      ⟨true, 200, "OK", .null, .absent, .num 0, .null, .num 3⟩ rfl).1,
   ((stats_falsy_fields_default envW ⟨none, none, none⟩
      ⟨true, 200, "OK", .null, .absent, .num 0, .null, .num 3⟩ rfl).2.1 rfl).1,
   (stats_falsy_fields_default envW ⟨none, none, none⟩
      ⟨true, 200, "OK", .null, .absent, .num 0, .null, .num 3⟩ rfl).2.2.2.2.2.2.1 rfl,
   (stats_falsy_fields_default envW ⟨none, none, none⟩
      ⟨true, 200, "OK", .null, .absent, .num 0, .null, .num 3⟩ rfl).2.2.2.2.2.2.2 rfl⟩

end Postmark
